import Mathlib

/-!
Shallow embedding of the detection-overlay rendering and adaptive
live-inference pipeline of the Vision web application.

The definitions below are translated directly from the repository source:
the geometry mapping, stale-detection fade, heat-ramp recoloring, label
placement, per-index hue assignment, and the live capture loop's state
updates (success path, failure path, stop, reschedule and adaptive delay).
Machine numbers that the source treats as real numbers are modelled as
rationals; counters and millisecond delays are modelled as naturals.
-/

namespace Vision

/-- A bounding box in the 0-1000 normalized scale, destructured from the
source's box_2d array as [ymin, xmin, ymax, xmax]. -/
structure Box where
  ymin : ℚ
  xmin : ℚ
  ymax : ℚ
  xmax : ℚ
deriving DecidableEq

/-- A detected object as declared in types.ts: label, confidence in [0,1],
and a normalized bounding box. -/
structure DetectedObject where
  label : String
  confidence : ℚ
  box_2d : Box
deriving DecidableEq

/-- A pixel-space rectangle produced by the geometry mapping. -/
structure Rect where
  x : ℚ
  y : ℚ
  w : ℚ
  h : ℚ
deriving DecidableEq

/-- The pixel mapping performed identically in LiveStream.draw (lines
235-238) and AnalysisTool.drawAnnotations (lines 219-222):
x = (xmin/1000)*W, y = (ymin/1000)*H, w = ((xmax - xmin)/1000)*W,
h = ((ymax - ymin)/1000)*H.  The source applies no clamping to any of
the four components. -/
def mapBox (b : Box) (W H : ℚ) : Rect :=
  { x := b.xmin / 1000 * W
    y := b.ymin / 1000 * H
    w := (b.xmax - b.xmin) / 1000 * W
    h := (b.ymax - b.ymin) / 1000 * H }

/-- Stale-detection fade from LiveStream.draw line 225:
opacity = Math.max(0, 1 - (timeSinceLastDetection / 1500)). -/
def opacity (now lastAt : ℚ) : ℚ :=
  max 0 (1 - (now - lastAt) / 1500)

/-- Per-index hue assignment used by both renderers:
hue = (idx * 137) % 360 (LiveStream.draw line 240,
AnalysisTool.drawAnnotations line 224). -/
def hue (idx : ℕ) : ℕ :=
  idx * 137 % 360

/-- The 4-stage heat color ramp of HeatmapLayer (part_002 lines 83-99),
as a function of the normalized intensity t = alpha/255, returning
(r, g, b).  Branches are translated verbatim:
t < 0.25: b = 255, g = (t/0.25)*255;
t < 0.5:  b = (1 - (t-0.25)/0.25)*255, g = 255;
t < 0.75: g = 255, r = ((t-0.5)/0.25)*255;
else:     r = 255, g = (1 - (t-0.75)/0.25)*255. -/
def heatRamp (t : ℚ) : ℚ × ℚ × ℚ :=
  if t < 1/4 then (0, t / (1/4) * 255, 255)
  else if t < 1/2 then (0, 255, (1 - (t - 1/4) / (1/4)) * 255)
  else if t < 3/4 then ((t - 1/2) / (1/4) * 255, 255, 0)
  else (255, (1 - (t - 3/4) / (1/4)) * 255, 0)

/-- The recolor pass for one pixel (part_002 lines 73-108): if the
accumulated alpha exceeds 10, replace the color with the ramp value at
t = alpha/255 and cap the output alpha at 180; otherwise force full
transparency, leaving the color channels untouched. -/
def recolorPixel (r g b : ℚ) (alpha : ℕ) : ℚ × ℚ × ℚ × ℕ :=
  if 10 < alpha then
    let c := heatRamp ((alpha : ℚ) / 255)
    (c.1, c.2.1, c.2.2, min 180 alpha)
  else (r, g, b, 0)

/-- Label chip placement of AnalysisTool.drawAnnotations (lines 244-247),
given the mapped box corner (x, y), the chip width (text width plus
padding) and the canvas width: labelY = y - 22, moved to y when it would
clip above the top; labelX = x, moved to canvasW - chipW when the chip
would clip past the right edge. -/
def staticLabelPos (x y chipW canvasW : ℚ) : ℚ × ℚ :=
  let labelY := y - 22
  let labelY2 := if labelY < 0 then y else labelY
  let labelX := x
  let labelX2 := if canvasW < labelX + chipW then canvasW - chipW else labelX
  (labelX2, labelY2)

/-- Label chip placement of LiveStream.draw (lines 269-275), given the
mapped box corner (x, y) and the mapped box height h: ly = y - 22, moved
below the box to y + h + 8 when it would clip above the top; the
horizontal position is always x (the source performs no horizontal
adjustment). -/
def liveLabelPos (x y h : ℚ) : ℚ × ℚ :=
  let ly := y - 22
  let ly2 := if ly < 0 then y + h + 8 else ly
  (x, ly2)

/-- The two performance modes of the live session. -/
inductive PerfMode where
  | speed
  | accuracy
deriving DecidableEq

/-- Adaptive polling delay from the finally block of runAnalysisLoop
(LiveStream.tsx lines 154-160):
delay = mode = speed ? 30 : 100; if latency > 1000 then delay = 200;
if errorCount > 0 then delay = min(500 * errorCount, 3000). -/
def nextDelay (mode : PerfMode) (latency : ℕ) (errorCount : ℕ) : ℕ :=
  let base := if mode = PerfMode.speed then 30 else 100
  let afterLatency := if 1000 < latency then 200 else base
  if 0 < errorCount then min (500 * errorCount) 3000 else afterLatency

/-- The live session state held by LiveStream.tsx: the scanning flag, the
latest detection set, the consecutive-error count, the last measured
latency, the advisory message, the performance mode, and whether a
reschedule timer is armed. -/
structure LiveState where
  isScanning : Bool
  detectedObjects : List DetectedObject
  errorCount : ℕ
  latency : ℕ
  systemMessage : Option String
  performanceMode : PerfMode
  pendingTimeout : Bool
deriving DecidableEq

/-- Stopping the session (toggleScanning, LiveStream.tsx lines 170-173,
together with the effect on the scanning flag at lines 40-47): the
scanning flag is cleared, the detection set is emptied, the pending
reschedule timer is cleared, and the advisory message, error streak and
latency telemetry are reset. -/
def stopScanning (s : LiveState) : LiveState :=
  { s with isScanning := false
           detectedObjects := []
           pendingTimeout := false
           systemMessage := none
           errorCount := 0
           latency := 0 }

/-- Starting the session (toggleScanning, LiveStream.tsx lines 175-182). -/
def startScanning (s : LiveState) : LiveState :=
  { s with isScanning := true
           errorCount := 0
           systemMessage := none
           latency := 0
           pendingTimeout := true }

/-- The plain React state bindings that runAnalysisLoop reads directly
rather than through a ref.  The loop reschedules its own closure
(setTimeout(runAnalysisLoop, delay) at LiveStream.tsx line 163 resolves
lexically to the executing closure, as does the initial
setTimeout(runAnalysisLoop, 100) in toggleScanning), so these bindings
stay frozen at their values from the render in which the session was
started: only isScanning, detectedObjects and performanceMode are routed
through refs (lines 34-37) and stay live.  The frozen reads are
errorCount (lines 111, 145, 160) and latency (line 159). -/
structure LoopClosure where
  errorCount : ℕ
  latency : ℕ
deriving DecidableEq

/-- The closure captured by any reachable session: toggleScanning's start
branch runs from a state in which errorCount and latency are 0 (they are
0 initially and are reset to 0 by the scanning-flag effect whenever a
session stops), so the frozen bindings are both 0. -/
def sessionClosure : LoopClosure :=
  { errorCount := 0, latency := 0 }

/-- The possible outcomes of one call into the inference service, as
distinguished by geminiService.analyzeVideoFrameWithGemini: a parsed
response with an object list, an empty response text, a response whose
JSON parse throws, or a thrown transport error. -/
inductive ServiceOutcome where
  | parsed (objects : List DetectedObject)
  | emptyText
  | malformedJson
  | transportError

/-- geminiService.analyzeVideoFrameWithGemini (lines 102-146): an empty
response text returns an empty object list, and the surrounding catch
converts both a JSON parse failure and a transport error into a
successfully resolved empty object list; the function never rejects. -/
def analyzeVideoFrameWithGemini : ServiceOutcome → List DetectedObject
  | ServiceOutcome.parsed objs => objs
  | ServiceOutcome.emptyText => []
  | ServiceOutcome.malformedJson => []
  | ServiceOutcome.transportError => []

/-- The success path of runAnalysisLoop (LiveStream.tsx lines 108-135),
applied when the raced inference promise resolves: guarded by the live
scanning ref; the detection set is replaced when the result is non-empty
or the closure-frozen errorCount binding (line 111) is non-zero; the
store's latency is recorded; the store's error streak and the advisory
message are reset; and when the measured latency exceeds 2500 while the
live mode ref reads accuracy, the mode is downgraded to speed with an
advisory message. -/
def onSuccess (c : LoopClosure) (s : LiveState) (objs : List DetectedObject)
    (measuredLatency : ℕ) : LiveState :=
  if s.isScanning = true then
    { s with
      detectedObjects :=
        if 0 < objs.length ∨ 0 < c.errorCount then objs else s.detectedObjects
      latency := measuredLatency
      errorCount := 0
      systemMessage :=
        if 2500 < measuredLatency ∧ s.performanceMode = PerfMode.accuracy then
          some "Network slow. Switched to Turbo Mode."
        else none
      performanceMode :=
        if 2500 < measuredLatency ∧ s.performanceMode = PerfMode.accuracy then
          PerfMode.speed
        else s.performanceMode }
  else s

/-- The failure path of runAnalysisLoop (LiveStream.tsx lines 138-148),
applied when the raced promise rejects (request timeout): guarded by the
live scanning ref; the store's error streak is incremented through the
functional updater (setErrorCount(prev => prev + 1)), while the advisory
condition at line 145 compares the closure-frozen errorCount binding,
not the incremented store value. -/
def onFailure (c : LoopClosure) (s : LiveState) : LiveState :=
  if s.isScanning = true then
    { s with
      errorCount := s.errorCount + 1
      systemMessage :=
        if 4 < c.errorCount then some "Connection unstable. Retrying..."
        else s.systemMessage }
  else s

/-- The finally block of runAnalysisLoop (LiveStream.tsx lines 149-166):
the reschedule timer is armed exactly when the live scanning ref is
still set (the delay itself is computed by nextDelay). -/
def finallyStep (s : LiveState) : LiveState :=
  { s with pendingTimeout := s.isScanning }

/-- The delay the finally block actually passes to setTimeout
(LiveStream.tsx lines 154-160): the mode is read through the live
performanceModeRef, but the latency and errorCount fed into the delay
expression are the closure-frozen bindings. -/
def finallyDelay (c : LoopClosure) (s : LiveState) : ℕ :=
  nextDelay s.performanceMode c.latency c.errorCount

/-- One resolution of the raced inference call in runAnalysisLoop
(LiveStream.tsx lines 101-148): either the service call wins the race
(and, by construction of the service, always resolves with an object
list), or the 6000 ms timeout wins and rejects. -/
inductive CycleOutcome where
  | resolved (svc : ServiceOutcome)
  | timeout

/-- The state transition of one capture cycle after the race settles,
run by the session's captured closure. -/
def runCycle (c : LoopClosure) (s : LiveState) (out : CycleOutcome)
    (measuredLatency : ℕ) : LiveState :=
  match out with
  | CycleOutcome.resolved svc =>
      onSuccess c s (analyzeVideoFrameWithGemini svc) measuredLatency
  | CycleOutcome.timeout => onFailure c s

/-- The detection from Scenario A of the specification. -/
def sampleCar : DetectedObject :=
  { label := "car"
    confidence := 92/100
    box_2d := { ymin := 100, xmin := 100, ymax := 400, xmax := 600 } }

/-- A scanning session with a clean telemetry slate. -/
def sampleState : LiveState :=
  { isScanning := true
    detectedObjects := []
    errorCount := 0
    latency := 0
    systemMessage := none
    performanceMode := PerfMode.speed
    pendingTimeout := true }

/-- A scanning session that has already accumulated five consecutive
failures: the functional updater keeps the store's errorCount live even
though the loop closure still reads 0. -/
def strainedState : LiveState :=
  { sampleState with errorCount := 5 }

/-- A scanning session mid-streak (three consecutive failures) whose last
applied detection set is still the Scenario A car. -/
def midStreakState : LiveState :=
  { sampleState with errorCount := 3, detectedObjects := [sampleCar] }

/-- A box whose x coordinates are non-monotonic (xmax < xmin). -/
def malformedBox : Box :=
  { ymin := 0, xmin := 500, ymax := 100, xmax := 100 }

/-- C1: Stopping a live session clears any pending reschedule and empties
the latest detection set; an inference call still in flight at stop time
never applies its eventual result, whatever closure it runs under:
whether it later resolves successfully or rejects, the detection set
stays empty, and its finally block does not re-arm the loop. -/
theorem stop_discards_pending_and_inflight_results (c : LoopClosure)
    (s : LiveState) (objs : List DetectedObject) (lat : ℕ) :
    (stopScanning s).pendingTimeout = false ∧
    (stopScanning s).detectedObjects = [] ∧
    (onSuccess c (stopScanning s) objs lat).detectedObjects = [] ∧
    (onFailure c (stopScanning s)).detectedObjects = [] ∧
    (finallyStep (onSuccess c (stopScanning s) objs lat)).pendingTimeout
      = false := by
  simp [stopScanning, onSuccess, onFailure, finallyStep]

/-- Counterexample to C2: in a reachable scanning session mid-streak
(store errorCount 3, previous detections non-empty), an empty successful
response is NOT applied — the guard at LiveStream.tsx line 111 reads the
closure-frozen errorCount (0), so the displayed set stays the previous
one instead of being replaced by the empty list as the claim requires for
a non-zero streak. -/
theorem empty_success_mid_streak_not_applied :
    midStreakState.errorCount ≠ 0 ∧
    (onSuccess sessionClosure midStreakState [] 50).detectedObjects
      = [sampleCar] ∧
    ¬ (onSuccess sessionClosure midStreakState [] 50).detectedObjects
      = ([] : List DetectedObject) := by
  refine ⟨by decide, ?_, ?_⟩ <;>
    simp [onSuccess, sessionClosure, midStreakState, sampleState]

/-- C2 as amended: in a scanning session the latest detection set is
replaced by the response's object list exactly when that list is
non-empty; the errorCount disjunct of the guard reads the
closure-captured binding, which is 0 in any reachable session, so an
empty successful response never replaces the displayed set — mid-streak
or not — and in particular an empty success while the streak is zero
leaves the set unchanged. -/
theorem success_replaces_detections_iff_nonempty (c : LoopClosure)
    (s : LiveState) (objs : List DetectedObject) (lat : ℕ)
    (hscan : s.isScanning = true) (hc : c.errorCount = 0) :
    (objs.length ≠ 0 →
      (onSuccess c s objs lat).detectedObjects = objs) ∧
    (objs.length = 0 →
      (onSuccess c s objs lat).detectedObjects = s.detectedObjects) := by
  constructor
  · intro hne
    have hguard : 0 < objs.length ∨ 0 < c.errorCount :=
      Or.inl (Nat.pos_of_ne_zero hne)
    simp [onSuccess, hscan, hguard]
  · intro h1
    have hguard : ¬ (0 < objs.length ∨ 0 < c.errorCount) := by
      simp [h1, hc]
    simp [onSuccess, hscan, hguard]

/-- Witness for the amended C2 under the reachable session closure: an
empty success mid-streak keeps the previous set; a non-empty success
replaces it. -/
theorem success_replaces_detections_witness :
    (onSuccess sessionClosure midStreakState [] 50).detectedObjects
      = midStreakState.detectedObjects ∧
    (onSuccess sessionClosure sampleState [sampleCar] 50).detectedObjects
      = [sampleCar] :=
  ⟨(success_replaces_detections_iff_nonempty sessionClosure
      midStreakState [] 50 rfl rfl).2 rfl,
   (success_replaces_detections_iff_nonempty sessionClosure
      sampleState [sampleCar] 50 rfl rfl).1 (by decide)⟩

/-- C3 as a code bug witnessed in the model: after five consecutive
failures in a reachable session (store errorCount 5, closure-frozen
errorCount and latency 0), the delay the finally block actually passes
to setTimeout is 30 ms in speed mode and 100 ms in accuracy mode — the
backoff branch min(500 n, 3000) at LiveStream.tsx line 160 compares the
frozen errorCount and never fires, contradicting the code's own
exponential-backoff comment and Scenario C's 2500 ms. -/
theorem backoff_dead_after_five_failures :
    strainedState.errorCount = 5 ∧
    finallyDelay sessionClosure strainedState = 30 ∧
    finallyDelay sessionClosure
      { strainedState with performanceMode := PerfMode.accuracy } = 100 ∧
    ¬ finallyDelay sessionClosure strainedState = 2500 := by
  refine ⟨by decide, ?_, ?_, by decide⟩ <;>
    simp [finallyDelay, nextDelay, sessionClosure, strainedState, sampleState]

/-- Counterexample to C4: for the non-monotonic box
(ymin 0, xmin 500, ymax 100, xmax 100) on a 1000 by 1000 canvas, the
pixel width handed to the drawing primitives is -400, not 0: neither
renderer clamps the computed width or height before use. -/
theorem malformed_width_not_clamped :
    (mapBox malformedBox 1000 1000).w = -400 ∧
    ¬ (mapBox malformedBox 1000 1000).w = 0 := by
  norm_num [mapBox, malformedBox]

/-- C4 as amended: the renderers perform no clamping; for a box with
non-monotonic coordinates the computed pixel width (resp. height) is
strictly negative on any canvas of positive extent, and is passed to the
drawing primitives as such. -/
theorem malformed_box_maps_to_negative_extent (b : Box) (W H : ℚ)
    (hW : 0 < W) (hH : 0 < H) :
    (b.xmax < b.xmin → (mapBox b W H).w < 0) ∧
    (b.ymax < b.ymin → (mapBox b W H).h < 0) := by
  constructor
  · intro hx
    have hnum : b.xmax - b.xmin < 0 := sub_neg.mpr hx
    have hdiv : (b.xmax - b.xmin) / 1000 < 0 :=
      div_neg_of_neg_of_pos hnum (by norm_num)
    exact mul_neg_of_neg_of_pos hdiv hW
  · intro hy
    have hnum : b.ymax - b.ymin < 0 := sub_neg.mpr hy
    have hdiv : (b.ymax - b.ymin) / 1000 < 0 :=
      div_neg_of_neg_of_pos hnum (by norm_num)
    exact mul_neg_of_neg_of_pos hdiv hH

/-- Witness for the amended C4 at the concrete malformed box. -/
theorem malformed_box_negative_witness :
    (mapBox malformedBox 1000 1000).w < 0 :=
  (malformed_box_maps_to_negative_extent malformedBox 1000 1000
    (by norm_num) (by norm_num)).1 (by norm_num [malformedBox])

/-- Counterexample to C5: a malformed JSON response in a reachable
scanning session with a zero error streak leaves the streak at 0 instead
of incrementing it to 1 — the service converts the parse failure into a
successfully resolved empty result, which takes the loop's success
path. -/
theorem malformed_json_does_not_increment_streak :
    (runCycle sessionClosure sampleState
      (CycleOutcome.resolved ServiceOutcome.malformedJson) 100).errorCount
      = 0 ∧
    ¬ (runCycle sessionClosure sampleState
      (CycleOutcome.resolved ServiceOutcome.malformedJson) 100).errorCount
      = sampleState.errorCount + 1 := by
  constructor
  · simp [runCycle, analyzeVideoFrameWithGemini, onSuccess, sessionClosure,
      sampleState]
  · simp [runCycle, analyzeVideoFrameWithGemini, onSuccess, sessionClosure,
      sampleState]

/-- C5 as amended: in a reachable scanning session (closure-frozen
errorCount 0), only a request timeout increments the consecutive-error
streak by one; transport errors, malformed JSON and empty responses are
converted by the service into a successful empty result, so those cycles
reset the streak to 0.  No cycle outcome ever clears the scanning flag,
and the advisory condition at LiveStream.tsx line 145 compares the
frozen errorCount, so the timeout path never changes the advisory
message: the advisory is dead code. -/
theorem transient_failure_handling (c : LoopClosure) (s : LiveState)
    (lat : ℕ) (hscan : s.isScanning = true) (hc : c.errorCount = 0) :
    (runCycle c s CycleOutcome.timeout lat).errorCount
      = s.errorCount + 1 ∧
    (∀ out, (runCycle c s out lat).isScanning = true) ∧
    (runCycle c s CycleOutcome.timeout lat).systemMessage
      = s.systemMessage ∧
    analyzeVideoFrameWithGemini ServiceOutcome.malformedJson = [] ∧
    analyzeVideoFrameWithGemini ServiceOutcome.transportError = [] ∧
    (runCycle c s (CycleOutcome.resolved ServiceOutcome.malformedJson)
      lat).errorCount = 0 ∧
    (runCycle c s (CycleOutcome.resolved ServiceOutcome.transportError)
      lat).errorCount = 0 := by
  refine ⟨?_, ?_, ?_, rfl, rfl, ?_, ?_⟩
  · simp [runCycle, onFailure, hscan]
  · intro out
    cases out with
    | resolved svc => simp [runCycle, onSuccess, hscan]
    | timeout => simp [runCycle, onFailure, hscan]
  · simp [runCycle, onFailure, hscan, hc]
  · simp [runCycle, analyzeVideoFrameWithGemini, onSuccess, hscan]
  · simp [runCycle, analyzeVideoFrameWithGemini, onSuccess, hscan]

/-- Witness for the amended C5: at a reachable session with store streak
5, a timeout increments the streak but leaves the advisory message
untouched, while a transport error resets the streak to 0. -/
theorem transient_failure_witness :
    (runCycle sessionClosure strainedState CycleOutcome.timeout 0).errorCount
      = strainedState.errorCount + 1 ∧
    (runCycle sessionClosure strainedState
      CycleOutcome.timeout 0).systemMessage = strainedState.systemMessage ∧
    (runCycle sessionClosure strainedState (CycleOutcome.resolved
      ServiceOutcome.transportError) 0).errorCount = 0 :=
  ⟨(transient_failure_handling sessionClosure strainedState 0 rfl rfl).1,
   (transient_failure_handling sessionClosure strainedState 0 rfl rfl).2.2.1,
   (transient_failure_handling sessionClosure strainedState 0 rfl
      rfl).2.2.2.2.2.2⟩

/-- C6: for now at or after lastDetectionAt, the fade opacity equals
clamp(1 - (now - lastAt)/1500, 0, 1); it is 1 when now = lastAt, 0 once
the elapsed time reaches 1500 ms, and strictly decreases in the elapsed
time within the grace window. -/
theorem fade_opacity_clamp (now lastAt : ℚ) (h : lastAt ≤ now) :
    opacity now lastAt = min 1 (max 0 (1 - (now - lastAt) / 1500)) ∧
    (now = lastAt → opacity now lastAt = 1) ∧
    (1500 ≤ now - lastAt → opacity now lastAt = 0) ∧
    (∀ later : ℚ, now < later → later - lastAt ≤ 1500 →
      opacity later lastAt < opacity now lastAt) := by
  refine ⟨?_, ?_, ?_, ?_⟩
  · have hle : 1 - (now - lastAt) / 1500 ≤ 1 := by
      have : 0 ≤ (now - lastAt) / 1500 :=
        div_nonneg (sub_nonneg.mpr h) (by norm_num)
      linarith
    rw [opacity, min_eq_right (max_le (by norm_num) hle)]
  · intro heq
    simp [opacity, heq]
  · intro hfar
    have hnonpos : 1 - (now - lastAt) / 1500 ≤ 0 := by
      have : (1 : ℚ) ≤ (now - lastAt) / 1500 := by
        rw [le_div_iff₀ (by norm_num : (0:ℚ) < 1500)]
        linarith
      linarith
    rw [opacity, max_eq_left hnonpos]
  · intro later hlt hwin
    have hlater : opacity later lastAt = 1 - (later - lastAt) / 1500 := by
      have hpos : 0 ≤ 1 - (later - lastAt) / 1500 := by
        have : (later - lastAt) / 1500 ≤ 1 := by
          rw [div_le_one (by norm_num : (0:ℚ) < 1500)]
          linarith
        linarith
      rw [opacity, max_eq_right hpos]
    have hdiv : (now - lastAt) / 1500 < (later - lastAt) / 1500 :=
      (div_lt_div_iff_of_pos_right (by norm_num : (0:ℚ) < 1500)).mpr (by linarith)
    have hnow : 1 - (now - lastAt) / 1500 ≤ opacity now lastAt :=
      le_max_right 0 _
    rw [hlater]
    linarith

/-- Witness for C6 at now = 100, lastAt = 0. -/
theorem fade_opacity_witness :
    opacity 100 0 = min 1 (max 0 (1 - ((100:ℚ) - 0) / 1500)) ∧
    ((100:ℚ) = 0 → opacity 100 0 = 1) ∧
    ((1500:ℚ) ≤ 100 - 0 → opacity 100 0 = 0) ∧
    (∀ later : ℚ, 100 < later → later - 0 ≤ 1500 →
      opacity later 0 < opacity 100 0) :=
  fade_opacity_clamp 100 0 (by norm_num)

/-- C7: for a box with monotone coordinates inside the 0-1000 range and a
canvas of non-negative extent, the mapped pixel rectangle lies inside the
canvas: its corner is non-negative and its far edge stays within the
canvas width and height. -/
theorem mapBox_within_canvas (b : Box) (W H : ℚ)
    (hy0 : 0 ≤ b.ymin) (hy1 : b.ymin ≤ b.ymax) (hy2 : b.ymax ≤ 1000)
    (hx0 : 0 ≤ b.xmin) (hx1 : b.xmin ≤ b.xmax) (hx2 : b.xmax ≤ 1000)
    (hW : 0 ≤ W) (hH : 0 ≤ H) :
    0 ≤ (mapBox b W H).x ∧ 0 ≤ (mapBox b W H).y ∧
    (mapBox b W H).x + (mapBox b W H).w ≤ W ∧
    (mapBox b W H).y + (mapBox b W H).h ≤ H := by
  refine ⟨?_, ?_, ?_, ?_⟩
  · exact mul_nonneg (div_nonneg hx0 (by norm_num)) hW
  · exact mul_nonneg (div_nonneg hy0 (by norm_num)) hH
  · have hsum : (mapBox b W H).x + (mapBox b W H).w = b.xmax / 1000 * W := by
      simp only [mapBox]
      ring
    rw [hsum]
    calc b.xmax / 1000 * W ≤ 1 * W := by
          apply mul_le_mul_of_nonneg_right ?_ hW
          rw [div_le_one (by norm_num : (0:ℚ) < 1000)]
          linarith
      _ = W := one_mul W
  · have hsum : (mapBox b W H).y + (mapBox b W H).h = b.ymax / 1000 * H := by
      simp only [mapBox]
      ring
    rw [hsum]
    calc b.ymax / 1000 * H ≤ 1 * H := by
          apply mul_le_mul_of_nonneg_right ?_ hH
          rw [div_le_one (by norm_num : (0:ℚ) < 1000)]
          linarith
      _ = H := one_mul H

/-- Witness for C7: the Scenario A box (100, 100, 400, 600) on a
1000 by 1000 canvas stays inside the canvas. -/
theorem mapBox_within_canvas_witness :
    0 ≤ (mapBox sampleCar.box_2d 1000 1000).x ∧
    0 ≤ (mapBox sampleCar.box_2d 1000 1000).y ∧
    (mapBox sampleCar.box_2d 1000 1000).x
      + (mapBox sampleCar.box_2d 1000 1000).w ≤ 1000 ∧
    (mapBox sampleCar.box_2d 1000 1000).y
      + (mapBox sampleCar.box_2d 1000 1000).h ≤ 1000 :=
  mapBox_within_canvas sampleCar.box_2d 1000 1000
    (by norm_num [sampleCar]) (by norm_num [sampleCar])
    (by norm_num [sampleCar]) (by norm_num [sampleCar])
    (by norm_num [sampleCar]) (by norm_num [sampleCar])
    (by norm_num) (by norm_num)

/-- C8: the heat-ramp segment boundaries map to the exact colors in
(r, g, b) order: t = 1/4 gives pure cyan, t = 1/2 pure green, t = 3/4
pure yellow and t = 1 pure red; accordingly a pixel with accumulated
alpha 255 (t = 1) recolors to pure red with the output alpha capped at
180. -/
theorem heat_ramp_boundaries :
    heatRamp (1/4) = (0, 255, 255) ∧
    heatRamp (1/2) = (0, 255, 0) ∧
    heatRamp (3/4) = (255, 255, 0) ∧
    heatRamp 1 = (255, 0, 0) ∧
    recolorPixel 255 255 255 255 = (255, 0, 0, 180) := by
  refine ⟨?_, ?_, ?_, ?_, ?_⟩ <;> norm_num [heatRamp, recolorPixel]

/-- Counterexample to C9: in the live HUD renderer a label chip of width
20 at box corner x = 90 on a canvas of width 100 stays at x = 90 and
extends to 110, past the right edge — the live renderer never shifts the
chip horizontally, while the static annotator at the same input shifts it
to fit. -/
theorem live_label_not_shifted :
    (liveLabelPos 90 50 10).1 = 90 ∧
    ¬ ((liveLabelPos 90 50 10).1 + 20 ≤ 100) ∧
    (staticLabelPos 90 50 20 100).1 + 20 ≤ 100 := by
  norm_num [liveLabelPos, staticLabelPos]

/-- C9 as amended: in the static annotator the chip goes above the box,
or at the box top edge when that would clip above the canvas, and is
left-aligned with the box unless it would clip past the right edge, in
which case it is shifted so that it fits within the canvas width; in the
live HUD renderer the chip goes above the box, or below it when that
would clip above the canvas, and is always left-aligned with the box left
edge with no horizontal adjustment. -/
theorem label_placement_rules (x y h chipW canvasW : ℚ) :
    (0 ≤ y - 22 → (staticLabelPos x y chipW canvasW).2 = y - 22) ∧
    (y - 22 < 0 → (staticLabelPos x y chipW canvasW).2 = y) ∧
    (x + chipW ≤ canvasW → (staticLabelPos x y chipW canvasW).1 = x) ∧
    (canvasW < x + chipW →
      (staticLabelPos x y chipW canvasW).1 = canvasW - chipW) ∧
    (staticLabelPos x y chipW canvasW).1 + chipW ≤ canvasW ∧
    (0 ≤ y - 22 → (liveLabelPos x y h).2 = y - 22) ∧
    (y - 22 < 0 → (liveLabelPos x y h).2 = y + h + 8) ∧
    (liveLabelPos x y h).1 = x := by
  refine ⟨?_, ?_, ?_, ?_, ?_, ?_, ?_, rfl⟩
  · intro hy
    simp only [staticLabelPos]
    rw [if_neg (by linarith)]
  · intro hy
    simp only [staticLabelPos]
    rw [if_pos hy]
  · intro hfit
    simp only [staticLabelPos]
    rw [if_neg (by linarith)]
  · intro hclip
    simp only [staticLabelPos]
    rw [if_pos hclip]
  · simp only [staticLabelPos]
    by_cases hclip : canvasW < x + chipW
    · rw [if_pos hclip]
      linarith
    · rw [if_neg hclip]
      linarith
  · intro hy
    simp only [liveLabelPos]
    rw [if_neg (by linarith)]
  · intro hy
    simp only [liveLabelPos]
    rw [if_pos hy]

/-- Witness for the amended C9 at x = 90, y = 50, h = 10, chip width 20,
canvas width 100. -/
theorem label_placement_witness :
    (staticLabelPos 90 50 20 100).2 = 50 - 22 ∧
    (staticLabelPos 90 50 20 100).1 = 100 - 20 ∧
    (liveLabelPos 90 50 10).2 = 50 - 22 ∧
    (liveLabelPos 90 50 10).1 = 90 :=
  ⟨(label_placement_rules 90 50 10 20 100).1 (by norm_num),
   (label_placement_rules 90 50 10 20 100).2.2.2.1 (by norm_num),
   (label_placement_rules 90 50 10 20 100).2.2.2.2.2.1 (by norm_num),
   (label_placement_rules 90 50 10 20 100).2.2.2.2.2.2.2⟩

/-- C10: the golden-angle hue assignment hue(i) = (i * 137) mod 360 is
injective on the first 360 detection indices, because 137 and 360 are
coprime: two distinct indices below 360 never receive the same hue. -/
theorem hue_injective_below_360 (i j : ℕ) (hij : i < j) (hj : j < 360) :
    hue i ≠ hue j := by
  intro h
  have hmul : i * 137 ≡ j * 137 [MOD 360] := h
  have hcop : Nat.gcd 360 137 = 1 := by norm_num
  have hmod : i ≡ j [MOD 360] := Nat.ModEq.cancel_right_of_coprime hcop hmul
  have hi : i % 360 = i := Nat.mod_eq_of_lt (lt_trans hij hj)
  have hj' : j % 360 = j := Nat.mod_eq_of_lt hj
  rw [Nat.ModEq, hi, hj'] at hmod
  omega

/-- Witness for C10: indices 1 and 2 receive distinct hues. -/
theorem hue_injective_witness : hue 1 ≠ hue 2 :=
  hue_injective_below_360 1 2 (by norm_num) (by norm_num)

end Vision
